import Mathlib

/-!
Verification development for the portracker backend.

The definitions below are shallow embeddings of the JavaScript source:
  * `src/backend/index.js` — service classifier (`detectServiceType`,
    lines 65–119), reachability probe (`testProtocol`, lines 202–366),
    status resolver (`determineServiceStatus`, lines 379–543), the
    `/api/ports` aggregation (lines 634–658), the annotation handlers
    (`/api/notes`, `/api/ignores`, `/api/custom-service-names` and their
    batch variants, lines 1444–2015) together with the response-cache
    interactions (`responseCache.delete` call sites).
  * `src/routes/auth.js` — the login credential check (POST `/login`).

JavaScript values that can be `null`/`undefined` are modelled with
`Option`; JavaScript truthiness (`0`, `""`, `null` are falsy) is modelled
explicitly at each use site; machine integers stay within small ranges so
`Nat`/`Int` are exact.
-/

namespace Portracker

/-- A service descriptor as produced by `detectServiceType`
(`name`, `type`, `description` string fields). -/
structure ServiceDescriptor where
  name : String
  type : String
  description : String
deriving Repr, DecidableEq

/-- The static `WELL_KNOWN_PORTS` table (index.js lines 65–83) as a
partial map from port numbers to descriptors. -/
def wellKnownPorts : Nat → Option ServiceDescriptor
  | 22 => some ⟨"SSH", "system", "Secure Shell (SSH)"⟩
  | 23 => some ⟨"Telnet", "system", "Telnet protocol"⟩
  | 25 => some ⟨"SMTP", "system", "Simple Mail Transfer Protocol (SMTP)"⟩
  | 53 => some ⟨"DNS", "system", "Domain Name System (DNS)"⟩
  | 80 => some ⟨"HTTP", "web", "Hypertext Transfer Protocol (HTTP)"⟩
  | 110 => some ⟨"POP3", "system", "Post Office Protocol version 3 (POP3)"⟩
  | 143 => some ⟨"IMAP", "system", "Internet Message Access Protocol (IMAP)"⟩
  | 443 => some ⟨"HTTPS", "web", "HTTP Secure (HTTPS)"⟩
  | 993 => some ⟨"IMAPS", "system", "IMAP over SSL"⟩
  | 995 => some ⟨"POP3S", "system", "POP3 over SSL"⟩
  | 1433 => some ⟨"SQL Server", "database", "Microsoft SQL Server database"⟩
  | 3306 => some ⟨"MySQL", "database", "MySQL database"⟩
  | 5432 => some ⟨"PostgreSQL", "database", "PostgreSQL database"⟩
  | 6379 => some ⟨"Redis", "database", "Redis in-memory database"⟩
  | 8080 => some ⟨"HTTP Alt", "web", "HTTP alternative port"⟩
  | 8443 => some ⟨"HTTPS Alt", "web", "HTTPS alternative port"⟩
  | 9000 => some ⟨"Management", "web", "Common management interface port"⟩
  | _ => none

/-- Boolean substring test: `substrB needle hay` is true when `needle`
occurs contiguously in `hay` (the embedding of JavaScript
`hay.includes(needle)`). -/
def substrB (needle hay : String) : Bool :=
  (List.range (hay.data.length + 1)).any
    (fun i => needle.data.isPrefixOf (hay.data.drop i))

/-- ASCII lowercasing of `owner.toLowerCase()`, written over the
character list so it reduces definitionally. -/
def lowerString (s : String) : String :=
  ⟨s.data.map Char.toLower⟩

/-- JavaScript `s.trim()`: strip leading and trailing whitespace,
written over the character list so it reduces definitionally. -/
def trimString (s : String) : String :=
  ⟨(((s.data.dropWhile Char.isWhitespace).reverse).dropWhile
      Char.isWhitespace).reverse⟩

/-- Owner keyword matching from `detectServiceType` (index.js lines
92–104): case-insensitive substring match against fixed keyword groups. -/
def ownerKeywordDescriptor (owner : String) : Option ServiceDescriptor :=
  let ol := lowerString owner
  if substrB "ssh" ol || substrB "sshd" ol then
    some ⟨"SSH", "system", "SSH service"⟩
  else if substrB "nginx" ol || substrB "apache" ol || substrB "httpd" ol then
    some ⟨"Web Server", "web", "Web server"⟩
  else if substrB "mysql" ol || substrB "postgres" ol || substrB "redis" ol then
    some ⟨"Database", "database", "Database service"⟩
  else none

/-- Port-range web heuristic from `detectServiceType` (index.js lines
106–110). -/
def webPortHeuristic (portNum : Nat) : Bool :=
  portNum == 80 || portNum == 443 || portNum == 8080 || portNum == 8443 ||
  (3000 ≤ portNum && portNum ≤ 3999) ||
  (4000 ≤ portNum && portNum ≤ 4999) ||
  (8000 ≤ portNum && portNum ≤ 8999) ||
  (9000 ≤ portNum && portNum ≤ 9999)

/-- Embedding of `detectServiceType(port, owner)` (index.js lines 85–119).
The `owner` guard `owner && typeof owner === "string"` makes an empty
owner string skip keyword matching (empty strings are falsy). -/
def detectServiceType (portNum : Nat) (owner : Option String) : ServiceDescriptor :=
  match wellKnownPorts portNum with
  | some d => d
  | none =>
    let fromOwner : Option ServiceDescriptor :=
      match owner with
      | some o => if o == "" then none else ownerKeywordDescriptor o
      | none => none
    match fromOwner with
    | some d => d
    | none =>
      if webPortHeuristic portNum then
        ⟨"Web Service", "web", "Web service"⟩
      else if portNum < 1024 then
        ⟨"System Service", "system", "System service"⟩
      else
        ⟨"Service", "service", "Application service"⟩

/-- Modelled from the spec wording of claim C6, for comparison with the
source-derived `detectServiceType`: first-match-wins order of (1) exact
well-known-port table, (2) owner keyword match, (3) the web port-range
heuristic (80, 443, 8080, 8443, or 3000–3999, 4000–4999, 8000–8999,
9000–9999), (4) port below 1024 as system, (5) the default descriptor.
The spec applies keyword matching to every present owner string. -/
def classifySpec (portNum : Nat) (owner : Option String) : ServiceDescriptor :=
  match wellKnownPorts portNum with
  | some d => d
  | none =>
    match owner.bind ownerKeywordDescriptor with
    | some d => d
    | none =>
      if portNum == 80 || portNum == 443 || portNum == 8080 || portNum == 8443 ||
         (3000 ≤ portNum && portNum ≤ 3999) ||
         (4000 ≤ portNum && portNum ≤ 4999) ||
         (8000 ≤ portNum && portNum ≤ 8999) ||
         (9000 ≤ portNum && portNum ≤ 9999) then
        ⟨"Web Service", "web", "Web service"⟩
      else if portNum < 1024 then
        ⟨"System Service", "system", "System service"⟩
      else
        ⟨"Service", "service", "Application service"⟩

/-- A probe result as produced by `testProtocol`: `statusCode` is absent
for unreachable results, `isSPA` defaults to false when the source leaves
the field undefined. -/
structure ProbeResult where
  reachable : Bool
  statusCode : Option Int
  protocol : Option String
  method : Option String
  isSPA : Bool
deriving Repr, DecidableEq

/-- A status result as produced by `determineServiceStatus`. -/
structure StatusResult where
  status : String
  color : String
  title : String
  description : String
  protocol : Option String
deriving Repr, DecidableEq

/-- JavaScript `x >= n` on a possibly-undefined status code: comparisons
against `undefined` are false. -/
def jsGe (x : Option Int) (n : Int) : Bool :=
  match x with
  | some v => n ≤ v
  | none => false

/-- JavaScript `x < n` on a possibly-undefined status code. -/
def jsLt (x : Option Int) (n : Int) : Bool :=
  match x with
  | some v => v < n
  | none => false

/-- JavaScript strict equality `x === n` of a possibly-undefined status
code against a number literal. -/
def jsEqNum (x : Option Int) (n : Int) : Bool :=
  x == some n

/-- String rendering of a possibly-undefined status code, as template
interpolation would produce it. -/
def jsNumToString (x : Option Int) : String :=
  match x with
  | some v => toString v
  | none => "undefined"

/-- Tail of `determineServiceStatus` after the web-specific branch
(index.js lines 496–542): the database/service table and the final
default. -/
def statusAfterWeb (serviceInfo : ServiceDescriptor) (wr : ProbeResult) : StatusResult :=
  if serviceInfo.type == "database" || serviceInfo.type == "service" then
    if jsEqNum wr.statusCode 401 then
      ⟨"accessible", "green", serviceInfo.name ++ " - HTTP accessible (auth)",
        serviceInfo.description, wr.protocol⟩
    else if jsEqNum wr.statusCode 403 then
      ⟨"listening", "yellow", serviceInfo.name ++ " - Listening (Forbidden)",
        serviceInfo.description, wr.protocol⟩
    else if jsLt wr.statusCode 500 then
      ⟨"accessible", "green", serviceInfo.name ++ " - HTTP accessible",
        serviceInfo.description, wr.protocol⟩
    else
      ⟨"listening", "yellow", serviceInfo.name ++ " - Service listening (not HTTP)",
        serviceInfo.description, none⟩
  else
    ⟨"listening", "yellow", serviceInfo.name ++ " - Service listening",
      serviceInfo.description, none⟩

/-- Web-type branch of `determineServiceStatus` (index.js lines 412–494);
falls through to `statusAfterWeb` when no condition matches (which the
source reaches when the status code is undefined or informational). -/
def statusWeb (serviceInfo : ServiceDescriptor) (wr : ProbeResult) : StatusResult :=
  if jsGe wr.statusCode 200 && jsLt wr.statusCode 400 then
    ⟨"accessible", "green", serviceInfo.name ++ " - Web service accessible",
      serviceInfo.description, wr.protocol⟩
  else if jsEqNum wr.statusCode 401 then
    ⟨"accessible", "green", serviceInfo.name ++ " - Web accessible (auth)",
      serviceInfo.description, wr.protocol⟩
  else if jsEqNum wr.statusCode 403 then
    ⟨"listening", "yellow", serviceInfo.name ++ " - Listening (Forbidden)",
      serviceInfo.description, wr.protocol⟩
  else if jsEqNum wr.statusCode 405 && wr.method == some "HEAD" then
    ⟨"accessible", "green", serviceInfo.name ++ " - Web accessible (GET)",
      serviceInfo.description, wr.protocol⟩
  else if jsEqNum wr.statusCode 404 then
    if wr.isSPA then
      ⟨"accessible", "green", serviceInfo.name ++ " - Web accessible",
        serviceInfo.description, wr.protocol⟩
    else
      ⟨"listening", "yellow", serviceInfo.name ++ " - Listening (no web UI)",
        serviceInfo.description, wr.protocol⟩
  else if jsGe wr.statusCode 400 && jsLt wr.statusCode 500 then
    ⟨"accessible", "green",
      serviceInfo.name ++ " - Web accessible (HTTP " ++ jsNumToString wr.statusCode ++ ")",
      serviceInfo.description, wr.protocol⟩
  else if jsGe wr.statusCode 500 then
    ⟨"error", "red",
      serviceInfo.name ++ " - HTTP " ++ jsNumToString wr.statusCode ++ " error",
      serviceInfo.description, wr.protocol⟩
  else
    statusAfterWeb serviceInfo wr

/-- Working-response selection of `determineServiceStatus` (index.js
lines 391–401): prefer an HTTPS 2xx, else an HTTP 2xx, else any reachable
HTTPS, else any reachable HTTP. -/
def pickWorkingResponse (httpsResponse httpResponse : ProbeResult) : Option ProbeResult :=
  if httpsResponse.reachable && jsGe httpsResponse.statusCode 200 &&
      jsLt httpsResponse.statusCode 300 then
    some httpsResponse
  else if httpResponse.reachable && jsGe httpResponse.statusCode 200 &&
      jsLt httpResponse.statusCode 300 then
    some httpResponse
  else if httpsResponse.reachable then
    some httpsResponse
  else if httpResponse.reachable then
    some httpResponse
  else
    none

/-- Embedding of `determineServiceStatus(serviceInfo, httpsResponse,
httpResponse)` (index.js lines 379–543). -/
def determineServiceStatus (serviceInfo : ServiceDescriptor)
    (httpsResponse httpResponse : ProbeResult) : StatusResult :=
  if serviceInfo.type == "system" then
    ⟨"system", "gray", serviceInfo.name ++ " - System service",
      serviceInfo.description, none⟩
  else
    match pickWorkingResponse httpsResponse httpResponse with
    | none =>
      ⟨"unreachable", "red", serviceInfo.name ++ " - Service not reachable",
        serviceInfo.description, none⟩
    | some wr =>
      if serviceInfo.type == "web" then
        statusWeb serviceInfo wr
      else
        statusAfterWeb serviceInfo wr

/-- A raw port observation as handed to the `/api/ports` aggregation
(one element of `entries`, index.js lines 626–632). `owner` and `pid` can
be absent; `pid = some 0` models the JavaScript number `0`. -/
structure PortObservation where
  host_ip : String
  host_port : Nat
  protocol : String
  owner : Option String
  pid : Option Nat
  container_id : Option String
  internal : Bool
deriving Repr, DecidableEq

/-- Accumulator entry of the aggregation fold: the first observation of
the group (its fields are spread into the result) plus the accumulated
`owners` and `pids` lists. -/
structure AggGroup where
  base : PortObservation
  owners : List (Option String)
  pids : List Nat
deriving Repr, DecidableEq

/-- One element of the `/api/ports` payload: the group plus the flat
comma-joined `owner` field (index.js lines 655–658). -/
structure PortsEntry where
  base : PortObservation
  owners : List (Option String)
  pids : List Nat
  owner : String
deriving Repr, DecidableEq

/-- Grouping key `host_ip:host_port:protocol` (index.js line 637). -/
def obsKey (e : PortObservation) : String :=
  e.host_ip ++ ":" ++ toString e.host_port ++ ":" ++ e.protocol

/-- JavaScript truthiness of the `pid` field: absent, and the number `0`,
are falsy (`[entry.pid].filter(Boolean)` and `entry.pid && ...`). -/
def pidTruthy : Option Nat → Bool
  | some p => p != 0
  | none => false

/-- Initial `pids` list of a fresh group: `[entry.pid].filter(Boolean)`
(index.js line 642). -/
def pidsInit (pid : Option Nat) : List Nat :=
  match pid with
  | some p => if p != 0 then [p] else []
  | none => []

/-- Merge step on `pids`: append the pid when truthy and not already
present (index.js lines 648–650). -/
def pidsAdd (pids : List Nat) (pid : Option Nat) : List Nat :=
  match pid with
  | some p => if p != 0 && !(pids.contains p) then pids ++ [p] else pids
  | none => pids

/-- Merge step on `owners`: append the owner when not already present
(index.js lines 645–647). -/
def ownersAdd (owners : List (Option String)) (owner : Option String) :
    List (Option String) :=
  if owners.contains owner then owners else owners ++ [owner]

/-- One step of the aggregation `reduce` (index.js lines 636–653) over an
insertion-ordered association list, matching the insertion-order
semantics of a JavaScript object with non-index string keys. -/
def addObs (acc : List (String × AggGroup)) (e : PortObservation) :
    List (String × AggGroup) :=
  let k := obsKey e
  if acc.any (fun kv => kv.1 == k) then
    acc.map (fun kv =>
      if kv.1 == k then
        (kv.1, ⟨kv.2.base, ownersAdd kv.2.owners e.owner, pidsAdd kv.2.pids e.pid⟩)
      else kv)
  else
    acc ++ [(k, ⟨e, [e.owner], pidsInit e.pid⟩)]

/-- JavaScript `Array.prototype.join(", ")` over the owners list: absent
owners render as the empty string. -/
def joinOwners (owners : List (Option String)) : String :=
  String.intercalate ", " (owners.map (fun o => o.getD ""))

/-- The truthiness filter of the `/api/ports` aggregation
(`entries.filter((e) => e.host_port && e.host_ip)`, index.js line 635). -/
def obsTruthy (e : PortObservation) : Bool :=
  e.host_port != 0 && e.host_ip != ""

/-- Embedding of the `/api/ports` normalization pipeline (index.js lines
634–658): truthiness filter, reduce into groups keyed by
`host_ip:host_port:protocol`, then flatten with the comma-joined owner. -/
def portsAggregate (entries : List PortObservation) : List PortsEntry :=
  let filtered := entries.filter obsTruthy
  let groups := filtered.foldl addObs []
  groups.map (fun kv => ⟨kv.2.base, kv.2.owners, kv.2.pids, joinOwners kv.2.owners⟩)

/-- First-appearance deduplication, the order in which the aggregation
accumulates list members. -/
def dedupFirst (l : List Nat) : List Nat :=
  l.foldl (fun acc p => if acc.contains p then acc else acc ++ [p]) []

/-- The composite identity used as the SQL key of the three tables:
`(server_id, host_ip, host_port, protocol, container_id, internal)`.
`container_id = none` models SQL NULL; the handlers' WHERE clause
`(container_id = ? OR (container_id IS NULL AND ? IS NULL))` is plain
equality of this record. -/
structure PortKey where
  server_id : String
  host_ip : String
  host_port : Nat
  protocol : String
  container_id : Option String
  internal : Bool
deriving Repr, DecidableEq

/-- JavaScript `x || null` on an optional string: the empty string
collapses to null. -/
def jsOrNull : Option String → Option String
  | some "" => none
  | x => x

/-- A row of the `notes` table: `updated_at` is NULL on insert (the
INSERT names neither timestamp; `created_at` defaults to now). -/
structure NoteRow where
  key : PortKey
  note : String
  created_at : Nat
  updated_at : Option Nat
deriving Repr, DecidableEq

/-- A row of the `ignores` table. -/
structure IgnoreRow where
  key : PortKey
  created_at : Nat
deriving Repr, DecidableEq

/-- A row of the `custom_service_names` table (both timestamps default to
now on insert). -/
structure CustomNameRow where
  key : PortKey
  custom_name : String
  original_name : Option String
  created_at : Nat
  updated_at : Nat
deriving Repr, DecidableEq

/-- Backend state seen by the annotation handlers: the three tables, the
response cache entry keyed `endpoint:ports:local` (`none` when absent),
and `failKeys`, the set of identities whose SQL statements raise a
storage error (the shallow embedding of better-sqlite3 throwing; an
identity not listed never fails). -/
structure AppState where
  notes : List NoteRow
  ignores : List IgnoreRow
  customNames : List CustomNameRow
  portsCache : Option (List PortsEntry)
  failKeys : List PortKey
deriving Repr, DecidableEq

/-- Response of the non-batch annotation handlers, keeping only status
and body message. -/
inductive SimpleResp where
  | ok (message : String)
  | notFound (error : String)
  | serverError (error : String)
deriving Repr, DecidableEq

/-- Request body of POST `/api/notes` after `validateNoteInput`. -/
structure NoteInput where
  server_id : String
  host_ip : String
  host_port : Nat
  protocol : String
  note : Option String
  container_id : Option String
  internal : Bool
deriving Repr, DecidableEq

/-- Identity targeted by a note request (`container_id || null`
normalization as in the handler). -/
def noteKey (i : NoteInput) : PortKey :=
  ⟨i.server_id, i.host_ip, i.host_port, i.protocol, jsOrNull i.container_id, i.internal⟩

/-- Trimmed note text: `note ? note.trim() : ""`. -/
def noteTrimmed (i : NoteInput) : String :=
  match i.note with
  | some n => trimString n
  | none => ""

/-- Embedding of the POST `/api/notes` handler body (index.js lines
1444–1491): case split on row existence and emptiness of the trimmed
text. The handler never touches the ports response cache. -/
def postNotes (now : Nat) (st : AppState) (i : NoteInput) : AppState × SimpleResp :=
  let k := noteKey i
  let trimmed := noteTrimmed i
  if st.failKeys.contains k then
    (st, .serverError "Database operation failed")
  else if st.notes.any (fun r => r.key == k) then
    if trimmed == "" then
      ({st with notes := st.notes.filter (fun r => !(r.key == k))},
        .ok "Note saved successfully")
    else
      ({st with notes := st.notes.map (fun r =>
          if r.key == k then {r with note := trimmed, updated_at := some now} else r)},
        .ok "Note saved successfully")
  else if trimmed != "" then
    ({st with notes := st.notes ++ [⟨k, trimmed, now, none⟩]},
      .ok "Note saved successfully")
  else
    (st, .ok "Note saved successfully")

/-- Client-side read of the note stored for one identity, from the rows
GET `/api/notes` returns. -/
def readNote (st : AppState) (k : PortKey) : Option String :=
  (st.notes.find? (fun r => r.key == k)).map (fun r => r.note)

/-- Request body of POST `/api/ignores` after `validateIgnoreInput`. -/
structure IgnoreInput where
  server_id : String
  host_ip : String
  host_port : Nat
  protocol : String
  ignored : Bool
  container_id : Option String
  internal : Bool
deriving Repr, DecidableEq

/-- Identity targeted by an ignore request. -/
def ignoreKey (i : IgnoreInput) : PortKey :=
  ⟨i.server_id, i.host_ip, i.host_port, i.protocol, jsOrNull i.container_id, i.internal⟩

/-- Embedding of the POST `/api/ignores` handler body (index.js lines
1526–1574): insert-if-absent when `ignored`, delete-if-present otherwise.
The handler never touches the ports response cache. -/
def postIgnores (now : Nat) (st : AppState) (i : IgnoreInput) : AppState × SimpleResp :=
  let k := ignoreKey i
  if st.failKeys.contains k then
    (st, .serverError "Database operation failed")
  else
    let existing := st.ignores.any (fun r => r.key == k)
    if i.ignored then
      if existing then (st, .ok "Ignore status updated")
      else ({st with ignores := st.ignores ++ [⟨k, now⟩]}, .ok "Ignore status updated")
    else
      if existing then
        ({st with ignores := st.ignores.filter (fun r => !(r.key == k))},
          .ok "Ignore status updated")
      else (st, .ok "Ignore status updated")

/-- Request body of POST `/api/custom-service-names` after validation
(`custom_name` is a non-empty string there). -/
structure CnInput where
  server_id : String
  host_ip : String
  host_port : Nat
  protocol : String
  custom_name : String
  original_name : Option String
  container_id : Option String
  internal : Bool
deriving Repr, DecidableEq

/-- Identity targeted by a custom-name request. -/
def cnKey (i : CnInput) : PortKey :=
  ⟨i.server_id, i.host_ip, i.host_port, i.protocol, jsOrNull i.container_id, i.internal⟩

/-- Update-or-insert of one `custom_service_names` row, as both the
primary and the mirror writes perform it. -/
def upsertCn (now : Nat) (rows : List CustomNameRow) (k : PortKey)
    (name : String) (orig : Option String) : List CustomNameRow :=
  if rows.any (fun r => r.key == k) then
    rows.map (fun r =>
      if r.key == k then {r with custom_name := name, original_name := orig, updated_at := now}
      else r)
  else
    rows ++ [⟨k, name, orig, now, now⟩]

/-- Sibling wildcard address of the mirror rule. -/
def siblingWildcard (ip : String) : String :=
  if ip == "0.0.0.0" then "::" else "0.0.0.0"

/-- Mirror target identity: same server, port and protocol, sibling
wildcard address, NULL container, internal 0. -/
def mirrorKey (k : PortKey) : PortKey :=
  ⟨k.server_id, siblingWildcard k.host_ip, k.host_port, k.protocol, none, false⟩

/-- Mirror guard of the custom-name handlers:
`!container_id && !internal && (host_ip === "0.0.0.0" || host_ip === "::")`
(the raw body value `container_id` is falsy exactly when it normalizes to
null). -/
def mirrorCond (k : PortKey) : Bool :=
  k.container_id == none && !k.internal &&
    (k.host_ip == "0.0.0.0" || k.host_ip == "::")

/-- Embedding of the POST `/api/custom-service-names` handler body
(index.js lines 1610–1699): upsert the primary row, mirror the upsert to
the sibling wildcard when the guard holds, then delete the
`endpoint:ports:local` cache entry. A storage failure on the sibling
identity escapes to the outer catch (only the mirror INSERT is wrapped in
its own try), leaving the primary committed and the cache intact. -/
def postCustomName (now : Nat) (st : AppState) (i : CnInput) : AppState × SimpleResp :=
  let k := cnKey i
  if st.failKeys.contains k then
    (st, .serverError "Database operation failed")
  else
    let rows1 := upsertCn now st.customNames k i.custom_name (jsOrNull i.original_name)
    if mirrorCond k then
      if st.failKeys.contains (mirrorKey k) then
        ({st with customNames := rows1}, .serverError "Database operation failed")
      else
        ({st with
            customNames := upsertCn now rows1 (mirrorKey k) i.custom_name
              (jsOrNull i.original_name),
            portsCache := none},
          .ok "Custom service name saved successfully")
    else
      ({st with customNames := rows1, portsCache := none},
        .ok "Custom service name saved successfully")

/-- Request body of DELETE `/api/custom-service-names`. -/
structure CnDeleteInput where
  server_id : String
  host_ip : String
  host_port : Nat
  protocol : String
  container_id : Option String
  internal : Bool
deriving Repr, DecidableEq

/-- Identity targeted by a custom-name delete request. -/
def cnDeleteKey (i : CnDeleteInput) : PortKey :=
  ⟨i.server_id, i.host_ip, i.host_port, i.protocol, jsOrNull i.container_id, i.internal⟩

/-- Rows matching a key, and the remainder, as one DELETE statement sees
them. -/
def deleteMatching (rows : List CustomNameRow) (k : PortKey) :
    Nat × List CustomNameRow :=
  ((rows.filter (fun r => r.key == k)).length,
    rows.filter (fun r => !(r.key == k)))

/-- Embedding of the DELETE `/api/custom-service-names` handler body
(index.js lines 1734–1803): primary delete, legacy fallback without
container, wildcard mirror delete, then cache invalidation only when at
least one row was deleted (otherwise 404 and the cache stays). -/
def deleteCustomName (st : AppState) (i : CnDeleteInput) : AppState × SimpleResp :=
  let k := cnDeleteKey i
  if st.failKeys.contains k then
    (st, .serverError "Database operation failed")
  else
    let d1 := deleteMatching st.customNames k
    let legacyKey : PortKey := {k with container_id := none}
    if d1.1 == 0 && !(k.container_id == none) && st.failKeys.contains legacyKey then
      ({st with customNames := d1.2}, .serverError "Database operation failed")
    else
      let d2 :=
        if d1.1 == 0 && !(k.container_id == none) then
          deleteMatching d1.2 legacyKey
        else (0, d1.2)
      if mirrorCond k && st.failKeys.contains (mirrorKey k) then
        ({st with customNames := d2.2}, .serverError "Database operation failed")
      else
        let d3 :=
          if mirrorCond k then deleteMatching d2.2 (mirrorKey k)
          else (0, d2.2)
        if d1.1 + d2.1 + d3.1 > 0 then
          ({st with customNames := d3.2, portsCache := none},
            .ok "Custom service name deleted successfully")
        else
          ({st with customNames := d3.2}, .notFound "Custom service name not found")

/-- Client-side read of the custom name stored for one identity. -/
def readCustomName (st : AppState) (k : PortKey) : Option String :=
  (st.customNames.find? (fun r => r.key == k)).map (fun r => r.custom_name)

/-- One operation of POST `/api/custom-service-names/batch`. -/
structure CnOp where
  action : String
  host_ip : String
  host_port : Nat
  protocol : String
  custom_name : Option String
  original_name : Option String
  container_id : Option String
  internal : Bool
deriving Repr, DecidableEq

/-- Identity targeted by a batch custom-name operation. -/
def cnOpKey (server_id : String) (op : CnOp) : PortKey :=
  ⟨server_id, op.host_ip, op.host_port, op.protocol, jsOrNull op.container_id, op.internal⟩

/-- Upfront per-operation validation of the custom-name batch handler
(index.js lines 1825–1876). -/
def validCnOp (op : CnOp) : Bool :=
  (op.action == "set" || op.action == "delete") &&
  trimString op.host_ip != "" &&
  (1 ≤ op.host_port && op.host_port ≤ 65535) &&
  (op.protocol == "tcp" || op.protocol == "udp") &&
  (op.action != "set" ||
    (match op.custom_name with
     | some n => trimString n != ""
     | none => false)) &&
  (match op.container_id with
   | some c => trimString c != ""
   | none => true)

/-- Per-item outcome pushed by the custom-name batch loop. -/
structure CnOutcome where
  host_ip : String
  host_port : Nat
  protocol : String
  container_id : Option String
  action : String
deriving Repr, DecidableEq

/-- Response of the custom-name batch endpoint. -/
inductive CnBatchResp where
  | ok (results : List CnOutcome)
  | badRequest (error : String)
  | serverError (error : String)
deriving Repr, DecidableEq

/-- The custom-name batch loop (index.js lines 1878–1915). The whole
loop sits inside one try: the first storage failure aborts it, the
accumulated outcomes are discarded, earlier statements stay committed and
the cache entry is not deleted. On completion the cache entry is deleted
and the outcomes are returned. -/
def runCnOps (now : Nat) (server_id : String) :
    List CnOp → AppState → List CnOutcome → AppState × CnBatchResp
  | [], st, acc => ({st with portsCache := none}, .ok acc)
  | op :: rest, st, acc =>
    let k := cnOpKey server_id op
    if st.failKeys.contains k then
      (st, .serverError "Database operation failed")
    else if op.action == "set" then
      let existed := st.customNames.any (fun r => r.key == k)
      let rows' := upsertCn now st.customNames k (op.custom_name.getD "") (jsOrNull op.original_name)
      let st' := {st with customNames := rows'}
      runCnOps now server_id rest st'
        (acc ++ [⟨op.host_ip, op.host_port, op.protocol, op.container_id,
          if existed then "updated" else "created"⟩])
    else
      let dm := deleteMatching st.customNames k
      runCnOps now server_id rest {st with customNames := dm.2}
        (acc ++ [⟨op.host_ip, op.host_port, op.protocol, op.container_id,
          if dm.1 > 0 then "deleted" else "not_found"⟩])

/-- Embedding of POST `/api/custom-service-names/batch` (index.js lines
1805–1934): request-level validation, upfront per-operation validation,
then the single-try loop. Note the batch loop performs no wildcard
mirroring. -/
def batchCustomNames (now : Nat) (st : AppState) (server_id : String)
    (ops : List CnOp) : AppState × CnBatchResp :=
  if trimString server_id == "" then
    (st, .badRequest "server_id is required and must be a non-empty string")
  else if ops.isEmpty then
    (st, .badRequest "operations array is required and must not be empty")
  else if !(ops.all validCnOp) then
    (st, .badRequest "invalid operation")
  else
    runCnOps now server_id ops st []

/-- One operation of POST `/api/notes/batch`. -/
structure NoteOp where
  action : String
  host_ip : String
  host_port : Nat
  protocol : String
  note : Option String
  container_id : Option String
  internal : Bool
deriving Repr, DecidableEq

/-- Identity targeted by a batch note operation. -/
def noteOpKey (server_id : String) (op : NoteOp) : PortKey :=
  ⟨server_id, op.host_ip, op.host_port, op.protocol, jsOrNull op.container_id, op.internal⟩

/-- Per-item outcome pushed by the notes batch loop; failed items carry
only `success`, `error` and the echoed fields. -/
structure NoteOutcome where
  success : Bool
  action : Option String
  host_ip : Option String
  host_port : Option Nat
  container_id : Option String
  internal : Option Bool
  deletedCount : Option Nat
  error : Option String
deriving Repr, DecidableEq

/-- Response of the notes batch endpoint. -/
inductive NotesBatchResp where
  | ok (results : List NoteOutcome)
  | badRequest (error : String)
deriving Repr, DecidableEq

/-- Truthiness of the `note` field in `action === "set" && note`. -/
def noteFieldTruthy : Option String → Bool
  | some n => n != ""
  | none => false

/-- The notes batch loop (index.js lines 1951–1998). Each operation has
its own try/catch: a storage failure is pushed as a failed outcome and
the loop continues. A `set` whose note is falsy or trims to empty, and an
unknown action, push no outcome at all. -/
def runNoteOps (now : Nat) (server_id : String) :
    List NoteOp → AppState → List NoteOutcome → AppState × List NoteOutcome
  | [], st, acc => (st, acc)
  | op :: rest, st, acc =>
    let k := noteOpKey server_id op
    if op.action == "" || op.host_ip == "" then
      runNoteOps now server_id rest st (acc ++
        [⟨false, none, none, none, none, none, none,
          some "Missing required fields: action, host_ip, host_port"⟩])
    else if !(1 ≤ op.host_port && op.host_port ≤ 65535) then
      runNoteOps now server_id rest st (acc ++
        [⟨false, none, none, none, none, none, none,
          some "host_port must be a valid port number (1-65535)"⟩])
    else if !(op.protocol == "tcp" || op.protocol == "udp") then
      runNoteOps now server_id rest st (acc ++
        [⟨false, none, none, none, none, none, none,
          some "protocol is required and must be either tcp or udp"⟩])
    else if op.action == "set" && noteFieldTruthy op.note then
      let trimmed := trimString (op.note.getD "")
      if trimmed == "" then
        runNoteOps now server_id rest st acc
      else if st.failKeys.contains k then
        runNoteOps now server_id rest st (acc ++
          [⟨false, none, some op.host_ip, some op.host_port, op.container_id,
            none, none, some "storage failure"⟩])
      else
        let existed := st.notes.any (fun r => r.key == k)
        let rows' :=
          if existed then
            st.notes.map (fun r =>
              if r.key == k then {r with note := trimmed, updated_at := some now} else r)
          else
            st.notes ++ [⟨k, trimmed, now, some now⟩]
        runNoteOps now server_id rest {st with notes := rows'} (acc ++
          [⟨true, some "set", some op.host_ip, some op.host_port, op.container_id,
            some op.internal, none, none⟩])
    else if op.action == "delete" then
      if st.failKeys.contains k then
        runNoteOps now server_id rest st (acc ++
          [⟨false, none, some op.host_ip, some op.host_port, op.container_id,
            none, none, some "storage failure"⟩])
      else
        let changes := (st.notes.filter (fun r => r.key == k)).length
        runNoteOps now server_id rest
          {st with notes := st.notes.filter (fun r => !(r.key == k))} (acc ++
          [⟨true, some "delete", some op.host_ip, some op.host_port, op.container_id,
            some op.internal, some changes, none⟩])
    else
      runNoteOps now server_id rest st acc

/-- Embedding of POST `/api/notes/batch` (index.js lines 1936–2015):
after the loop the cache entry is always deleted and the itemized
outcomes are returned with status 200. -/
def batchNotes (now : Nat) (st : AppState) (server_id : String)
    (ops : List NoteOp) : AppState × NotesBatchResp :=
  if server_id == "" then
    (st, .badRequest "server_id and operations array are required")
  else
    let p := runNoteOps now server_id ops st []
    ({p.1 with portsCache := none}, .ok p.2)

/-- The per-probe timeout constant `PING_TIMEOUT` (index.js line 41). -/
def PING_TIMEOUT : Nat := 2000

/-- URL scheme probed by `testProtocol`. -/
inductive Scheme where
  | http
  | https
deriving Repr, DecidableEq

/-- Timed behavior of the target server for one request: how long it
takes to answer and either an HTTP status code or (`none`) a
connection/TLS failure at that moment. -/
structure StageBehavior where
  duration : Nat
  outcome : Option Nat
deriving Repr, DecidableEq

/-- Result of one request attempt: a response with a status code, or a
rejection (network error or abort), each at an absolute finish time. -/
inductive FetchResult where
  | response (code : Nat) (finish : Nat)
  | failure (finish : Nat)
deriving Repr, DecidableEq

/-- Timed semantics of `fetch(url, signal: controller.signal)` where the
single `AbortController` of `testProtocol` is armed by
`setTimeout(() => controller.abort(), PING_TIMEOUT)` at probe start:
`deadline` is that absolute abort time and `t` the moment this request is
issued. A request issued at or after the deadline rejects immediately; a
response that would arrive after the deadline is aborted at the deadline. -/
def sharedFetch (deadline t : Nat) (b : StageBehavior) : FetchResult :=
  if deadline ≤ t then
    .failure t
  else if t + b.duration ≤ deadline then
    match b.outcome with
    | some code => .response code (t + b.duration)
    | none => .failure (t + b.duration)
  else
    .failure deadline

/-- Observable outcome of one probe, keeping the fields the claims are
about. -/
structure ProbeModelResult where
  reachable : Bool
  statusCode : Option Nat
  method : Option String
deriving Repr, DecidableEq

/-- Stages of `testProtocol` after HEAD did not return (index.js lines
246–360): the GET uses the same already-armed controller, and only on a
GET rejection does an HTTPS probe retry with the permissive TLS request,
which carries its own independent `timeout: PING_TIMEOUT`. -/
def afterHead (scheme : Scheme) (deadline t1 : Nat)
    (get perm : StageBehavior) : ProbeModelResult :=
  match sharedFetch deadline t1 get with
  | .response code _ =>
    if code < 500 then ⟨true, some code, some "GET"⟩
    else ⟨false, none, none⟩
  | .failure _ =>
    match scheme with
    | .http => ⟨false, none, none⟩
    | .https =>
      if perm.duration ≤ PING_TIMEOUT then
        match perm.outcome with
        | some code =>
          if code < 500 then ⟨true, some code, some "GET"⟩
          else ⟨false, none, none⟩
        | none => ⟨false, none, none⟩
      else ⟨false, none, none⟩

/-- Timed embedding of `testProtocol` (index.js lines 202–366): one
controller and one `PING_TIMEOUT` deadline shared by the HEAD and GET
stages, HEAD short-circuiting on a status below 500 and different from
404, and the permissive-TLS GET as the only stage with its own timeout. -/
def testProtocolModel (scheme : Scheme) (head get perm : StageBehavior) :
    ProbeModelResult :=
  let deadline := PING_TIMEOUT
  match sharedFetch deadline 0 head with
  | .response code t1 =>
    if code < 500 && code != 404 then ⟨true, some code, some "HEAD"⟩
    else afterHead scheme deadline t1 get perm
  | .failure t1 => afterHead scheme deadline t1 get perm

/-- Independent per-stage request semantics: every stage gets a fresh
full `PING_TIMEOUT` budget of its own. -/
def ownFetch (b : StageBehavior) : FetchResult :=
  if b.duration ≤ PING_TIMEOUT then
    match b.outcome with
    | some code => .response code b.duration
    | none => .failure b.duration
  else
    .failure PING_TIMEOUT

/-- Modelled from the spec wording of claim C2, for comparison with the
source-derived `testProtocolModel`: the same HEAD, GET,
permissive-TLS-GET cascade, but with each stage independently enforcing
the per-stage timeout, so that a timeout in one stage leaves the
remaining stages their own full budget. -/
def testProtocolClaim (scheme : Scheme) (head get perm : StageBehavior) :
    ProbeModelResult :=
  match ownFetch head with
  | .response code _ =>
    if code < 500 && code != 404 then ⟨true, some code, some "HEAD"⟩
    else claimAfterHead scheme get perm
  | .failure _ => claimAfterHead scheme get perm
where
  claimAfterHead (scheme : Scheme) (get perm : StageBehavior) : ProbeModelResult :=
    match ownFetch get with
    | .response code _ =>
      if code < 500 then ⟨true, some code, some "GET"⟩
      else ⟨false, none, none⟩
    | .failure _ =>
      match scheme with
      | .http => ⟨false, none, none⟩
      | .https =>
        match ownFetch perm with
        | .response code _ =>
          if code < 500 then ⟨true, some code, some "GET"⟩
          else ⟨false, none, none⟩
        | .failure _ => ⟨false, none, none⟩

/-- A row of the `users` table, as the login credential check reads it. -/
structure UserRow where
  id : String
  username : String
  password_hash : String
deriving Repr, DecidableEq

/-- Observable outcome of one login request: HTTP status, response error
or success body, and whether a bcrypt comparison was performed during the
request. -/
structure LoginObs where
  status : Nat
  body : String
  bcryptCompared : Bool
deriving Repr, DecidableEq

/-- The fixed dummy bcrypt hash compared against when the username does
not exist (auth routes, line 193). -/
def dummyBcryptHash : String :=
  "$2a$10$AAAAAAAAAAAAAAAAAAAAAA.AAAAAAAAAAAAAAAAAAAAAAAAAAAAAAAAA"

/-- Embedding of the POST `/login` credential check (auth routes, lines
126–230). `bcryptCompare` and `recoveryValid` abstract the bcrypt
library and the recovery-key manager; the recovery branch is collapsed to
its observable success since the claims condition on a non-recovery
password. The non-recovery path always runs exactly one bcrypt
comparison, against the fixed dummy hash when the user is absent, and
answers failed logins with 401 `Invalid credentials` whether or not the
username exists. -/
def loginCheck (users : List UserRow) (bcryptCompare : String → String → Bool)
    (recoveryValid : String → Bool) (authEnabled : Bool)
    (username password : String) : LoginObs :=
  if !authEnabled then
    ⟨400, "Authentication is not enabled", false⟩
  else if username == "" || password == "" then
    ⟨400, "Username and password are required", false⟩
  else if recoveryValid password then
    ⟨200, "recovery", false⟩
  else
    let trimmedUsername := trimString username
    let user? := users.find? (fun u => u.username == trimmedUsername)
    let hashToCompare :=
      match user? with
      | some u => u.password_hash
      | none => dummyBcryptHash
    let isValid := bcryptCompare password hashToCompare
    match user? with
    | none => ⟨401, "Invalid credentials", true⟩
    | some u =>
      if !isValid then ⟨401, "Invalid credentials", true⟩
      else ⟨200, u.username, true⟩

/-! ## Helper lemmas -/

/-- Mapping a function that preserves the search predicate commutes with
`find?`. -/
theorem find?_map_keyed {α : Type} (l : List α) (p : α → Bool) (f : α → α)
    (h : ∀ a, p (f a) = p a) :
    (l.map f).find? p = (l.find? p).map f := by
  induction l with
  | nil => rfl
  | cons a l ih =>
    by_cases hp : p a = true
    · simp [List.find?_cons, h a, hp]
    · simp only [Bool.not_eq_true] at hp
      simp [List.find?_cons, h a, hp, ih]

/-- When nothing in the first list satisfies the predicate, `find?` over
the concatenation searches the second list. -/
theorem find?_append_of_none {α : Type} (l1 l2 : List α) (p : α → Bool)
    (h : l1.find? p = none) :
    (l1 ++ l2).find? p = l2.find? p := by
  induction l1 with
  | nil => rfl
  | cons a l ih =>
    rw [List.find?_cons] at h
    by_cases hp : p a = true
    · simp [hp] at h
    · simp only [Bool.not_eq_true] at hp
      simp only [hp] at h
      simp [List.find?_cons, hp, ih h]

/-- A false `any` means `find?` fails. -/
theorem find?_eq_none_of_any_false {α : Type} (l : List α) (p : α → Bool)
    (h : l.any p = false) : l.find? p = none := by
  rw [List.find?_eq_none]
  intro x hx
  rw [List.any_eq_false] at h
  exact fun hpx => h x hx hpx

/-- Keyword matching of an empty owner string never fires. -/
theorem ownerKeywordDescriptor_empty : ownerKeywordDescriptor "" = none := by
  rfl

/-! ## Claims -/

/-- C6. For every port number in 0–65535 and every owner string (or
absent owner), `detectServiceType` returns exactly one descriptor
(totality is inherent in the Lean function) and agrees with the
specified first-match-wins cascade `classifySpec`: exact well-known-port
table, then owner keyword match, then the web port-range heuristic, then
port below 1024 as system, else the default Service descriptor. -/
theorem c6_classifier_refinement (portNum : Nat) (_hp : portNum ≤ 65535)
    (owner : Option String) :
    detectServiceType portNum owner = classifySpec portNum owner := by
  unfold detectServiceType classifySpec webPortHeuristic
  cases owner with
  | none => rfl
  | some o =>
    by_cases h : o = ""
    · subst h
      simp [ownerKeywordDescriptor_empty]
    · simp [h]

/-- C6 witness: the refinement instantiated at port 3000 with owner
string present. -/
theorem c6_classifier_refinement_witness :
    3000 ≤ 65535 ∧
      detectServiceType 3000 (some "myapp") = classifySpec 3000 (some "myapp") :=
  ⟨by decide, c6_classifier_refinement 3000 (by decide) (some "myapp")⟩

/-- Probe result of an unreachable protocol check. -/
def probeUnreachable : ProbeResult := ⟨false, none, none, none, false⟩

/-- Probe result of an HTTP GET answered 404, with the given SPA flag. -/
def probeHttp404 (spa : Bool) : ProbeResult :=
  ⟨true, some 404, some "http", some "GET", spa⟩

/-- Probe result of an HTTP GET answered 403. -/
def probeHttp403 : ProbeResult :=
  ⟨true, some 403, some "http", some "GET", false⟩

/-- C5. The status resolver satisfies the claimed decision-table cases:
web-type with HTTPS unreachable and HTTP 404 non-SPA gives
listening/yellow; the same with SPA gives accessible/green; system-type
ignores probe input and gives system/gray; database-type with a 403
working response gives listening/yellow. -/
theorem c5_status_resolver_table :
    (∀ d : ServiceDescriptor, d.type = "web" →
      (determineServiceStatus d probeUnreachable (probeHttp404 false)).status = "listening" ∧
      (determineServiceStatus d probeUnreachable (probeHttp404 false)).color = "yellow") ∧
    (∀ d : ServiceDescriptor, d.type = "web" →
      (determineServiceStatus d probeUnreachable (probeHttp404 true)).status = "accessible" ∧
      (determineServiceStatus d probeUnreachable (probeHttp404 true)).color = "green") ∧
    (∀ (d : ServiceDescriptor) (httpsResponse httpResponse : ProbeResult),
      d.type = "system" →
      determineServiceStatus d httpsResponse httpResponse =
        ⟨"system", "gray", d.name ++ " - System service", d.description, none⟩) ∧
    (∀ d : ServiceDescriptor, d.type = "database" →
      (determineServiceStatus d probeUnreachable probeHttp403).status = "listening" ∧
      (determineServiceStatus d probeUnreachable probeHttp403).color = "yellow") := by
  refine ⟨?_, ?_, ?_, ?_⟩
  · intro d hd
    simp [determineServiceStatus, pickWorkingResponse, statusWeb, probeUnreachable,
      probeHttp404, hd, jsGe, jsLt, jsEqNum]
  · intro d hd
    simp [determineServiceStatus, pickWorkingResponse, statusWeb, probeUnreachable,
      probeHttp404, hd, jsGe, jsLt, jsEqNum]
  · intro d https http hd
    simp [determineServiceStatus, hd]
  · intro d hd
    simp [determineServiceStatus, pickWorkingResponse, statusWeb, statusAfterWeb,
      probeUnreachable, probeHttp403, hd, jsGe, jsLt, jsEqNum]

/-- C5 witness: the decision table applied to concrete descriptors. -/
theorem c5_status_resolver_table_witness :
    ((determineServiceStatus ⟨"HTTP", "web", "w"⟩ probeUnreachable
        (probeHttp404 false)).status = "listening" ∧
      (determineServiceStatus ⟨"HTTP", "web", "w"⟩ probeUnreachable
        (probeHttp404 false)).color = "yellow") ∧
    ((determineServiceStatus ⟨"HTTP", "web", "w"⟩ probeUnreachable
        (probeHttp404 true)).status = "accessible" ∧
      (determineServiceStatus ⟨"HTTP", "web", "w"⟩ probeUnreachable
        (probeHttp404 true)).color = "green") ∧
    (determineServiceStatus ⟨"SSH", "system", "s"⟩ probeUnreachable
        (probeHttp404 false) =
      ⟨"system", "gray", "SSH - System service", "s", none⟩) ∧
    ((determineServiceStatus ⟨"MySQL", "database", "d"⟩ probeUnreachable
        probeHttp403).status = "listening" ∧
      (determineServiceStatus ⟨"MySQL", "database", "d"⟩ probeUnreachable
        probeHttp403).color = "yellow") :=
  ⟨c5_status_resolver_table.1 ⟨"HTTP", "web", "w"⟩ rfl,
    c5_status_resolver_table.2.1 ⟨"HTTP", "web", "w"⟩ rfl,
    c5_status_resolver_table.2.2.1 ⟨"SSH", "system", "s"⟩ probeUnreachable
      (probeHttp404 false) rfl,
    c5_status_resolver_table.2.2.2 ⟨"MySQL", "database", "d"⟩ rfl⟩

/-- C9. The `/api/ports` aggregation drops an observation whose
`host_port` is 0 or whose `host_ip` is the empty string (JavaScript
truthiness, not field presence): the aggregated output is the same as if
the observation were not in the input. -/
theorem c9_truthiness_filter (es1 es2 : List PortObservation)
    (e : PortObservation) (h : e.host_port = 0 ∨ e.host_ip = "") :
    portsAggregate (es1 ++ e :: es2) = portsAggregate (es1 ++ es2) := by
  have hobs : obsTruthy e = false := by
    unfold obsTruthy
    rcases h with h | h <;> simp [h]
  unfold portsAggregate
  rw [List.filter_append, List.filter_append, List.filter_cons, hobs]
  simp

/-- C9 witness: a present observation with `host_port = 0` is excluded. -/
theorem c9_truthiness_filter_witness :
    ((⟨"10.0.0.1", 0, "tcp", some "x", none, none, false⟩ :
        PortObservation).host_port = 0 ∨
      (⟨"10.0.0.1", 0, "tcp", some "x", none, none, false⟩ :
        PortObservation).host_ip = "") ∧
    portsAggregate ([] ++ ⟨"10.0.0.1", 0, "tcp", some "x", none, none, false⟩ :: []) =
      portsAggregate ([] ++ []) :=
  ⟨Or.inl rfl,
    c9_truthiness_filter [] [] ⟨"10.0.0.1", 0, "tcp", some "x", none, none, false⟩
      (Or.inl rfl)⟩

/-- C10. With authentication enabled and a non-recovery password, a
login naming an existing user with a wrong password and a login naming a
non-existent user both yield status 401 with the identical body
`Invalid credentials`, and a bcrypt comparison is performed in both runs
(against the fixed dummy hash in the second). -/
theorem c10_login_no_user_enumeration (users : List UserRow)
    (bcryptCompare : String → String → Bool) (recoveryValid : String → Bool)
    (name1 pw1 name2 pw2 : String) (u : UserRow)
    (h1 : name1 ≠ "") (h2 : pw1 ≠ "") (h3 : name2 ≠ "") (h4 : pw2 ≠ "")
    (hrv1 : recoveryValid pw1 = false) (hrv2 : recoveryValid pw2 = false)
    (hfind1 : users.find? (fun r => r.username == trimString name1) = some u)
    (hwrong : bcryptCompare pw1 u.password_hash = false)
    (hfind2 : users.find? (fun r => r.username == trimString name2) = none) :
    loginCheck users bcryptCompare recoveryValid true name1 pw1 =
        ⟨401, "Invalid credentials", true⟩ ∧
      loginCheck users bcryptCompare recoveryValid true name2 pw2 =
        ⟨401, "Invalid credentials", true⟩ := by
  constructor
  · simp [loginCheck, h1, h2, hrv1, hfind1, hwrong]
  · simp [loginCheck, h3, h4, hrv2, hfind2]

/-- C10 witness: concrete user table, wrong-password and unknown-user
requests. -/
theorem c10_login_no_user_enumeration_witness :
    loginCheck [⟨"id1", "alice", "hash1"⟩] (fun _ _ => false) (fun _ => false)
        true "alice" "wrongpw" = ⟨401, "Invalid credentials", true⟩ ∧
      loginCheck [⟨"id1", "alice", "hash1"⟩] (fun _ _ => false) (fun _ => false)
        true "bob" "anypw" = ⟨401, "Invalid credentials", true⟩ :=
  c10_login_no_user_enumeration [⟨"id1", "alice", "hash1"⟩]
    (fun _ _ => false) (fun _ => false) "alice" "wrongpw" "bob" "anypw"
    ⟨"id1", "alice", "hash1"⟩ (by decide) (by decide) (by decide) (by decide)
    rfl rfl (by rfl) rfl (by rfl)

/-- A state with empty tables, no failing identities and a present (empty
payload) ports cache entry. -/
def stCached : AppState := ⟨[], [], [], some [], []⟩

/-- A state with empty tables, no failing identities and no cache entry. -/
def stEmpty : AppState := ⟨[], [], [], none, []⟩

/-- A plain note-upsert request (non-wildcard address). -/
def iNotePlain : NoteInput :=
  ⟨"local", "10.0.0.5", 8080, "tcp", some "hello", none, false⟩

/-- C1 counterexample: a successful non-batch note upsert (a real
mutation: the row is created and the handler answers success) leaves the
`endpoint:ports:local` cache entry in place, so the claim that every
successful annotation mutation deletes it fails; a subsequent
`/api/ports` read can still serve the pre-mutation payload. -/
theorem c1_notes_mutation_keeps_cache_counterexample :
    (postNotes 5 stCached iNotePlain).2 = .ok "Note saved successfully" ∧
      (postNotes 5 stCached iNotePlain).1.notes ≠ [] ∧
      (postNotes 5 stCached iNotePlain).1.portsCache = some [] := by
  refine ⟨rfl, ?_, rfl⟩
  decide

/-- A note-upsert request targeting the IPv4 wildcard with no container
and internal false. -/
def iNoteWildcard : NoteInput :=
  ⟨"local", "0.0.0.0", 8080, "tcp", some "hello", none, false⟩

/-- C3 counterexample: a note write targeting `0.0.0.0` with no
container_id and internal=false succeeds and stores the note for the
target identity, but no sibling `::` row is written — note writes are
not mirrored, contradicting the claim. -/
theorem c3_note_mirror_counterexample :
    (postNotes 7 stEmpty iNoteWildcard).2 = .ok "Note saved successfully" ∧
      readNote (postNotes 7 stEmpty iNoteWildcard).1 (noteKey iNoteWildcard) =
        some "hello" ∧
      readNote (postNotes 7 stEmpty iNoteWildcard).1
        (mirrorKey (noteKey iNoteWildcard)) = none := by
  refine ⟨rfl, ?_, ?_⟩ <;> decide

/-- A note-upsert request whose text carries surrounding whitespace. -/
def iNotePadded : NoteInput :=
  ⟨"local", "10.0.0.5", 8080, "tcp", some " a ", none, false⟩

/-- C8 counterexample: writing the non-empty note text `" a "` succeeds,
but the subsequent read returns the trimmed text `"a"`, not exactly the
written text, so the round-trip clause of the claim fails. -/
theorem c8_roundtrip_trim_counterexample :
    (postNotes 3 stEmpty iNotePadded).2 = .ok "Note saved successfully" ∧
      readNote (postNotes 3 stEmpty iNotePadded).1 (noteKey iNotePadded) =
        some "a" ∧
      readNote (postNotes 3 stEmpty iNotePadded).1 (noteKey iNotePadded) ≠
        some " a " := by
  refine ⟨rfl, ?_, ?_⟩ <;> decide

/-- First aggregation observation: owner nginx, pid 1. -/
def obsNginx : PortObservation :=
  ⟨"10.0.0.1", 80, "tcp", some "nginx", some 1, none, false⟩

/-- Second aggregation observation: same key, owner caddy, pid 0 —
non-null but falsy in JavaScript. -/
def obsCaddyPid0 : PortObservation :=
  ⟨"10.0.0.1", 80, "tcp", some "caddy", some 0, none, false⟩

/-- C7 counterexample: the two same-key observations merge into one
entry with owner `nginx, caddy` as claimed, but the `pids` list is not
the deduplicated list of every non-null pid of the group: the non-null
pid 0 is dropped by the truthiness filter. -/
theorem c7_pid_zero_counterexample :
    (portsAggregate [obsNginx, obsCaddyPid0]).map (fun e => e.owner) =
        ["nginx, caddy"] ∧
      (portsAggregate [obsNginx, obsCaddyPid0]).map (fun e => e.pids) ≠
        [dedupFirst (List.filterMap id [obsNginx.pid, obsCaddyPid0.pid])] := by
  constructor <;> decide

/-- A server behavior answering 200 but only after 2500 ms. -/
def slowHead : StageBehavior := ⟨2500, some 200⟩

/-- A server behavior answering 200 within 100 ms. -/
def fastGet : StageBehavior := ⟨100, some 200⟩

/-- An irrelevant permissive-stage behavior (immediate failure). -/
def permIdle : StageBehavior := ⟨0, none⟩

/-- C2 counterexample: when the HEAD stage times out (the server would
answer only after 2500 ms while the controller aborts at 2000 ms), the
code probe reports unreachable even though the server answers GET within
100 ms, because the aborted controller is shared with the GET stage; the
claimed per-stage-budget cascade would report the port reachable via
GET. -/
theorem c2_shared_timeout_counterexample :
    testProtocolModel .http slowHead fastGet permIdle = ⟨false, none, none⟩ ∧
      testProtocolClaim .http slowHead fastGet permIdle =
        ⟨true, some 200, some "GET"⟩ := by
  constructor <;> rfl

/-- The failing identity used by the batch counterexample. -/
def kFailB : PortKey := ⟨"local", "10.0.0.1", 81, "tcp", none, false⟩

/-- A state whose storage throws on `kFailB` and holds a cache entry. -/
def stFailB : AppState := ⟨[], [], [], some [], [kFailB]⟩

/-- Batch custom-name operation targeting the failing identity. -/
def opSetB : CnOp :=
  ⟨"set", "10.0.0.1", 81, "tcp", some "B", none, none, false⟩

/-- Batch custom-name operation targeting a healthy identity. -/
def opSetA : CnOp :=
  ⟨"set", "10.0.0.1", 80, "tcp", some "A", none, none, false⟩

/-- C4 counterexample: in the custom-name batch, a storage failure on
the first operation aborts the whole batch with a generic 500 — no
itemized outcomes are returned, the second operation is never applied
and the cache entry survives — contradicting the claim that each
operation is applied independently with per-item outcomes. -/
theorem c4_batch_abort_counterexample :
    (batchCustomNames 9 stFailB "local" [opSetB, opSetA]).2 =
        .serverError "Database operation failed" ∧
      (batchCustomNames 9 stFailB "local" [opSetB, opSetA]).1.customNames = [] ∧
      (batchCustomNames 9 stFailB "local" [opSetB, opSetA]).1.portsCache =
        some [] := by
  refine ⟨?_, ?_, ?_⟩ <;> decide

/-- A completed custom-name batch loop always ends with the cache entry
deleted. -/
theorem runCnOps_ok_cache (now : Nat) (sid : String) (ops : List CnOp) :
    ∀ (st : AppState) (acc res : List CnOutcome),
      (runCnOps now sid ops st acc).2 = .ok res →
      (runCnOps now sid ops st acc).1.portsCache = none := by
  induction ops with
  | nil => intro st acc res _; rfl
  | cons op rest ih =>
    intro st acc res
    simp only [runCnOps]
    split
    · intro h
      simp at h
    · split
      · intro h
        exact ih _ _ _ h
      · intro h
        exact ih _ _ _ h

/-- C1 amended: only the custom-name mutations invalidate the cache —
a successful custom-name upsert, a custom-name delete that deleted rows,
and a run-to-completion of either batch endpoint all delete the
`endpoint:ports:local` entry, while the non-batch note upsert and the
ignore set/unset never touch the cache at all, on any path. -/
theorem c1_cache_invalidation_amended :
    (∀ (now : Nat) (st : AppState) (i : NoteInput),
      (postNotes now st i).1.portsCache = st.portsCache) ∧
    (∀ (now : Nat) (st : AppState) (i : IgnoreInput),
      (postIgnores now st i).1.portsCache = st.portsCache) ∧
    (∀ (now : Nat) (st : AppState) (i : CnInput),
      (postCustomName now st i).2 = .ok "Custom service name saved successfully" →
      (postCustomName now st i).1.portsCache = none) ∧
    (∀ (st : AppState) (i : CnDeleteInput),
      (deleteCustomName st i).2 = .ok "Custom service name deleted successfully" →
      (deleteCustomName st i).1.portsCache = none) ∧
    (∀ (now : Nat) (st : AppState) (sid : String) (ops : List CnOp)
        (res : List CnOutcome),
      (batchCustomNames now st sid ops).2 = .ok res →
      (batchCustomNames now st sid ops).1.portsCache = none) ∧
    (∀ (now : Nat) (st : AppState) (sid : String) (ops : List NoteOp)
        (res : List NoteOutcome),
      (batchNotes now st sid ops).2 = .ok res →
      (batchNotes now st sid ops).1.portsCache = none) := by
  refine ⟨?_, ?_, ?_, ?_, ?_, ?_⟩
  · intro now st i
    simp only [postNotes]
    split
    · rfl
    · split
      · split <;> rfl
      · split <;> rfl
  · intro now st i
    simp only [postIgnores]
    split
    · rfl
    · split <;> split <;> rfl
  · intro now st i
    simp only [postCustomName]
    split
    · intro h
      simp at h
    · split
      · split
        · intro h
          simp at h
        · intro _
          rfl
      · intro _
        rfl
  · intro st i
    simp only [deleteCustomName]
    repeat' split
    all_goals intro h
    all_goals first | rfl | simp at h
  · intro now st sid ops res
    simp only [batchCustomNames]
    split
    · intro h
      simp at h
    · split
      · intro h
        simp at h
      · split
        · intro h
          simp at h
        · intro h
          exact runCnOps_ok_cache now sid ops st [] res h
  · intro now st sid ops res
    simp only [batchNotes]
    split
    · intro h
      simp at h
    · intro _
      rfl

/-- A plain ignore request. -/
def iIgnPlain : IgnoreInput :=
  ⟨"local", "10.0.0.5", 8080, "tcp", true, none, false⟩

/-- A plain custom-name upsert request (non-wildcard address). -/
def iCnPlain : CnInput :=
  ⟨"local", "10.0.0.5", 8080, "tcp", "Nice Name", none, none, false⟩

/-- A state holding exactly one custom-name row. -/
def stOneCn : AppState :=
  ⟨[], [], [⟨⟨"local", "10.0.0.5", 8080, "tcp", none, false⟩, "n", none, 0, 0⟩],
    some [], []⟩

/-- A delete request matching the row of `stOneCn`. -/
def iDelPlain : CnDeleteInput :=
  ⟨"local", "10.0.0.5", 8080, "tcp", none, false⟩

/-- C1 amended witness: each conjunct of the amended cache-invalidation
theorem applied at a concrete state and request. -/
theorem c1_cache_invalidation_amended_witness :
    (postNotes 5 stCached iNotePlain).1.portsCache = stCached.portsCache ∧
      (postIgnores 5 stCached iIgnPlain).1.portsCache = stCached.portsCache ∧
      (postCustomName 5 stCached iCnPlain).1.portsCache = none ∧
      (deleteCustomName stOneCn iDelPlain).1.portsCache = none ∧
      (batchCustomNames 5 stCached "local" [opSetA]).1.portsCache = none ∧
      (batchNotes 5 stCached "local" []).1.portsCache = none :=
  ⟨c1_cache_invalidation_amended.1 5 stCached iNotePlain,
    c1_cache_invalidation_amended.2.1 5 stCached iIgnPlain,
    c1_cache_invalidation_amended.2.2.1 5 stCached iCnPlain (by decide),
    c1_cache_invalidation_amended.2.2.2.1 stOneCn iDelPlain (by decide),
    c1_cache_invalidation_amended.2.2.2.2.1 5 stCached "local" [opSetA]
      [⟨"10.0.0.1", 80, "tcp", none, "created"⟩] (by decide),
    c1_cache_invalidation_amended.2.2.2.2.2 5 stCached "local" [] [] (by decide)⟩

/-- A request issued under the shared controller when the HEAD stage
exceeds the whole probe budget is aborted at the deadline. -/
theorem sharedFetch_head_timeout (head : StageBehavior)
    (h : PING_TIMEOUT < head.duration) :
    sharedFetch PING_TIMEOUT 0 head = .failure PING_TIMEOUT := by
  unfold sharedFetch
  rw [if_neg (by decide), if_neg (by omega)]

/-- A request issued exactly at the shared deadline rejects immediately,
whatever the server would have answered. -/
theorem sharedFetch_at_deadline (b : StageBehavior) :
    sharedFetch PING_TIMEOUT PING_TIMEOUT b = .failure PING_TIMEOUT := by
  unfold sharedFetch
  rw [if_pos le_rfl]

/-- C2 amended: the HEAD and GET stages share one timeout controller
armed at probe start, so a HEAD-stage timeout also aborts the GET stage
immediately — the probe result is then independent of the GET-stage
behavior; only the permissive-TLS stage (HTTPS only) enforces its own
independent full timeout and still completes after a HEAD timeout. -/
theorem c2_stage_timeout_amended :
    (∀ (scheme : Scheme) (head get get' perm : StageBehavior),
        PING_TIMEOUT < head.duration →
        testProtocolModel scheme head get perm =
          testProtocolModel scheme head get' perm) ∧
    (∀ (head get perm : StageBehavior) (c : Nat),
        PING_TIMEOUT < head.duration → perm.duration ≤ PING_TIMEOUT →
        perm.outcome = some c → c < 500 →
        testProtocolModel .https head get perm = ⟨true, some c, some "GET"⟩) := by
  constructor
  · intro scheme head get get' perm h
    simp only [testProtocolModel]
    rw [sharedFetch_head_timeout head h]
    simp only [afterHead]
    rw [sharedFetch_at_deadline, sharedFetch_at_deadline]
  · intro head get perm c h hdur hout hc
    simp only [testProtocolModel]
    rw [sharedFetch_head_timeout head h]
    simp only [afterHead]
    rw [sharedFetch_at_deadline]
    simp [hdur, hout, hc]

/-- C2 amended witness: the shared-abort independence and the permissive
stage applied at concrete stage behaviors. -/
theorem c2_stage_timeout_amended_witness :
    testProtocolModel .http slowHead fastGet permIdle =
        testProtocolModel .http slowHead ⟨1999, some 204⟩ permIdle ∧
      testProtocolModel .https slowHead fastGet ⟨150, some 200⟩ =
        ⟨true, some 200, some "GET"⟩ :=
  ⟨c2_stage_timeout_amended.1 .http slowHead fastGet ⟨1999, some 204⟩ permIdle
      (by decide),
    c2_stage_timeout_amended.2 slowHead fastGet ⟨150, some 200⟩ 200
      (by decide) (by decide) rfl (by decide)⟩

/-- Reading back a note after the UPDATE statement rewrote every
matching row yields the new text. -/
theorem noteRows_find_update (now : Nat) (l : List NoteRow) (k : PortKey)
    (t : String) (hex : l.any (fun r => r.key == k) = true) :
    ((l.map (fun r =>
        if r.key == k then {r with note := t, updated_at := some now} else r)).find?
      (fun r => r.key == k)).map (fun r => r.note) = some t := by
  rw [find?_map_keyed]
  · cases hf : l.find? (fun r => r.key == k) with
    | none =>
      exfalso
      have hall := List.find?_eq_none.mp hf
      obtain ⟨x, hx, hpx⟩ := List.any_eq_true.mp hex
      exact hall x hx hpx
    | some a =>
      have hpa := List.find?_some hf
      simp only [beq_iff_eq] at hpa
      simp [hpa]
  · intro a
    by_cases hpa : (a.key == k) = true
    · simp [hpa]
    · simp [hpa]

/-- Reading back a note after the INSERT statement appended a fresh row
(no earlier row matches) yields the inserted text. -/
theorem noteRows_find_append (l : List NoteRow) (k : PortKey) (row : NoteRow)
    (hnone : l.any (fun r => r.key == k) = false) (hk : (row.key == k) = true) :
    ((l ++ [row]).find? (fun r => r.key == k)).map (fun r => r.note) =
      some row.note := by
  rw [find?_append_of_none _ _ _ (find?_eq_none_of_any_false _ _ hnone)]
  simp [List.find?, hk]

/-- The note handler answers success on every non-failing path. -/
theorem postNotes_resp (now : Nat) (st : AppState) (i : NoteInput)
    (hfail : st.failKeys.contains (noteKey i) = false) :
    (postNotes now st i).2 = .ok "Note saved successfully" := by
  simp only [postNotes, hfail, Bool.false_eq_true, if_false]
  split
  · split <;> rfl
  · split <;> rfl

/-- Empty trimmed text with an existing row deletes the matching rows. -/
theorem postNotes_delete_case (now : Nat) (st : AppState) (i : NoteInput)
    (hfail : st.failKeys.contains (noteKey i) = false)
    (ht : noteTrimmed i = "")
    (hex : st.notes.any (fun r => r.key == noteKey i) = true) :
    (postNotes now st i).1.notes =
      st.notes.filter (fun r => !(r.key == noteKey i)) := by
  have hmem : ¬ (noteKey i ∈ st.failKeys) := by simpa using hfail
  simp [postNotes, hmem, ht, hex]

/-- Empty trimmed text with no existing row is a no-op on the state. -/
theorem postNotes_noop_case (now : Nat) (st : AppState) (i : NoteInput)
    (hfail : st.failKeys.contains (noteKey i) = false)
    (ht : noteTrimmed i = "")
    (hex : st.notes.any (fun r => r.key == noteKey i) = false) :
    (postNotes now st i).1 = st := by
  have hmem : ¬ (noteKey i ∈ st.failKeys) := by simpa using hfail
  simp [postNotes, hmem, ht, hex]

/-- Non-empty trimmed text with an existing row updates the matching
rows' text and `updated_at`. -/
theorem postNotes_update_case (now : Nat) (st : AppState) (i : NoteInput)
    (hfail : st.failKeys.contains (noteKey i) = false)
    (ht : noteTrimmed i ≠ "")
    (hex : st.notes.any (fun r => r.key == noteKey i) = true) :
    (postNotes now st i).1.notes = st.notes.map (fun r =>
      if r.key == noteKey i then
        {r with note := noteTrimmed i, updated_at := some now}
      else r) := by
  have hmem : ¬ (noteKey i ∈ st.failKeys) := by simpa using hfail
  simp [postNotes, hmem, ht, hex]

/-- Non-empty trimmed text with no existing row inserts a fresh row with
`created_at = now` and NULL `updated_at`. -/
theorem postNotes_insert_case (now : Nat) (st : AppState) (i : NoteInput)
    (hfail : st.failKeys.contains (noteKey i) = false)
    (ht : noteTrimmed i ≠ "")
    (hex : st.notes.any (fun r => r.key == noteKey i) = false) :
    (postNotes now st i).1.notes =
      st.notes ++ [⟨noteKey i, noteTrimmed i, now, none⟩] := by
  have hmem : ¬ (noteKey i ∈ st.failKeys) := by simpa using hfail
  simp [postNotes, hmem, ht, hex]

/-- Round trip: after writing text with non-empty trim, the read returns
the trimmed text. -/
theorem postNotes_read (now : Nat) (st : AppState) (i : NoteInput)
    (hfail : st.failKeys.contains (noteKey i) = false)
    (ht : noteTrimmed i ≠ "") :
    readNote (postNotes now st i).1 (noteKey i) = some (noteTrimmed i) := by
  by_cases hex : st.notes.any (fun r => r.key == noteKey i) = true
  · rw [readNote, postNotes_update_case now st i hfail ht hex]
    exact noteRows_find_update now st.notes (noteKey i) (noteTrimmed i) hex
  · rw [Bool.not_eq_true] at hex
    rw [readNote, postNotes_insert_case now st i hfail ht hex]
    exact noteRows_find_append st.notes (noteKey i) _ hex (by simp)

/-- C8 amended: the note upsert follows exactly the claimed case split
(delete on empty trim with existing row, update text and `updated_at` on
non-empty trim with existing row, insert on non-empty trim with no row,
success no-op on empty trim with no row), and a write of text whose trim
is non-empty followed by a read returns exactly the trimmed text. -/
theorem c8_upsert_note_cases_amended (now : Nat) (st : AppState) (i : NoteInput)
    (hfail : st.failKeys.contains (noteKey i) = false) :
    ((postNotes now st i).2 = .ok "Note saved successfully") ∧
    (noteTrimmed i = "" → st.notes.any (fun r => r.key == noteKey i) = true →
      (postNotes now st i).1.notes =
        st.notes.filter (fun r => !(r.key == noteKey i))) ∧
    (noteTrimmed i = "" → st.notes.any (fun r => r.key == noteKey i) = false →
      (postNotes now st i).1 = st) ∧
    (noteTrimmed i ≠ "" → st.notes.any (fun r => r.key == noteKey i) = true →
      (postNotes now st i).1.notes = st.notes.map (fun r =>
        if r.key == noteKey i then
          {r with note := noteTrimmed i, updated_at := some now}
        else r)) ∧
    (noteTrimmed i ≠ "" → st.notes.any (fun r => r.key == noteKey i) = false →
      (postNotes now st i).1.notes =
        st.notes ++ [⟨noteKey i, noteTrimmed i, now, none⟩]) ∧
    (noteTrimmed i ≠ "" →
      readNote (postNotes now st i).1 (noteKey i) = some (noteTrimmed i)) :=
  ⟨postNotes_resp now st i hfail,
    fun ht hex => postNotes_delete_case now st i hfail ht hex,
    fun ht hex => postNotes_noop_case now st i hfail ht hex,
    fun ht hex => postNotes_update_case now st i hfail ht hex,
    fun ht hex => postNotes_insert_case now st i hfail ht hex,
    fun ht => postNotes_read now st i hfail ht⟩

/-- C8 amended witness: the case split applied to a concrete fresh
write, with the round trip returning the trimmed text. -/
theorem c8_upsert_note_cases_amended_witness :
    (postNotes 3 stEmpty iNotePadded).2 = .ok "Note saved successfully" ∧
      (postNotes 3 stEmpty iNotePadded).1.notes =
        stEmpty.notes ++ [⟨noteKey iNotePadded, noteTrimmed iNotePadded, 3, none⟩] ∧
      readNote (postNotes 3 stEmpty iNotePadded).1 (noteKey iNotePadded) =
        some (noteTrimmed iNotePadded) :=
  ⟨(c8_upsert_note_cases_amended 3 stEmpty iNotePadded (by decide)).1,
    (c8_upsert_note_cases_amended 3 stEmpty iNotePadded (by decide)).2.2.2.2.1
      (by decide) (by decide),
    (c8_upsert_note_cases_amended 3 stEmpty iNotePadded (by decide)).2.2.2.2.2
      (by decide)⟩

/-- Reading back a custom name right after an upsert on its key yields
the upserted name. -/
theorem cnRows_find_upsert (now : Nat) (rows : List CustomNameRow)
    (k : PortKey) (name : String) (orig : Option String) :
    ((upsertCn now rows k name orig).find? (fun r => r.key == k)).map
      (fun r => r.custom_name) = some name := by
  unfold upsertCn
  by_cases hex : rows.any (fun r => r.key == k) = true
  · simp only [hex, if_true]
    rw [find?_map_keyed]
    · cases hf : rows.find? (fun r => r.key == k) with
      | none =>
        exfalso
        have hall := List.find?_eq_none.mp hf
        obtain ⟨x, hx, hpx⟩ := List.any_eq_true.mp hex
        exact hall x hx hpx
      | some a =>
        have hpa := List.find?_some hf
        simp only [beq_iff_eq] at hpa
        simp [hpa]
    · intro a
      by_cases hpa : (a.key == k) = true
      · simp [hpa]
      · simp [hpa]
  · rw [Bool.not_eq_true] at hex
    simp only [hex, Bool.false_eq_true, if_false]
    rw [find?_append_of_none _ _ _ (find?_eq_none_of_any_false _ _ hex)]
    simp [List.find?]

/-- Rows filtered on a key no longer contain that key. -/
theorem all_not_key_filter (l : List CustomNameRow) (k : PortKey) :
    (l.filter (fun r => !(r.key == k))).all (fun r => !(r.key == k)) = true := by
  simp only [List.all_eq_true, List.mem_filter]
  intro a ha
  exact ha.2

/-- A wildcard custom-name upsert with no container and internal false
succeeds and also upserts the sibling-wildcard row with the same name. -/
theorem postCustomName_mirror (now : Nat) (st : AppState) (i : CnInput)
    (hc : (cnKey i).container_id = none) (hint : i.internal = false)
    (hip : i.host_ip = "0.0.0.0" ∨ i.host_ip = "::")
    (hf1 : st.failKeys.contains (cnKey i) = false)
    (hf2 : st.failKeys.contains (mirrorKey (cnKey i)) = false) :
    (postCustomName now st i).2 = .ok "Custom service name saved successfully" ∧
      readCustomName (postCustomName now st i).1 (mirrorKey (cnKey i)) =
        some i.custom_name := by
  have hc2 : jsOrNull i.container_id = none := hc
  have hm : mirrorCond (cnKey i) = true := by
    unfold mirrorCond
    have hki : (cnKey i).internal = false := hint
    rcases hip with h | h <;>
      simp [hc2, hki, cnKey, h, hint]
  have hm1 : ¬ (cnKey i ∈ st.failKeys) := by simpa using hf1
  have hm2 : ¬ (mirrorKey (cnKey i) ∈ st.failKeys) := by simpa using hf2
  constructor
  · simp [postCustomName, hm1, hm, hm2]
  · have hres : (postCustomName now st i).1.customNames =
        upsertCn now (upsertCn now st.customNames (cnKey i) i.custom_name
          (jsOrNull i.original_name)) (mirrorKey (cnKey i)) i.custom_name
          (jsOrNull i.original_name) := by
      simp [postCustomName, hm1, hm, hm2]
    rw [readCustomName, hres]
    exact cnRows_find_upsert now _ (mirrorKey (cnKey i)) i.custom_name
      (jsOrNull i.original_name)

/-- A wildcard custom-name delete with no container and internal false
also deletes every sibling-wildcard row. -/
theorem deleteCustomName_mirror (st : AppState) (i : CnDeleteInput)
    (hc : (cnDeleteKey i).container_id = none) (hint : i.internal = false)
    (hip : i.host_ip = "0.0.0.0" ∨ i.host_ip = "::")
    (hf1 : st.failKeys.contains (cnDeleteKey i) = false)
    (hf2 : st.failKeys.contains (mirrorKey (cnDeleteKey i)) = false) :
    ((deleteCustomName st i).1.customNames.all
      (fun r => !(r.key == mirrorKey (cnDeleteKey i)))) = true := by
  have hki : (cnDeleteKey i).internal = false := hint
  have hc2 : jsOrNull i.container_id = none := hc
  have hm : mirrorCond (cnDeleteKey i) = true := by
    unfold mirrorCond
    rcases hip with h | h <;>
      simp [hc2, hki, cnDeleteKey, h, hint]
  have hlegacy : (!((cnDeleteKey i).container_id == none)) = false := by
    simp [hc]
  simp only [deleteCustomName, hf1, Bool.false_eq_true, if_false, hlegacy,
    Bool.and_false, Bool.false_and, hm, hf2, Bool.and_true, Bool.true_and,
    deleteMatching]
  repeat' split
  all_goals try exact all_not_key_filter _ _
  all_goals exact absurd trivial (by assumption)

/-- The note handler writes no row for any identity other than its
target: every row of the result was already present or carries the
target key. -/
theorem postNotes_only_target (now : Nat) (st : AppState) (i : NoteInput) :
    ∀ r ∈ (postNotes now st i).1.notes, r ∈ st.notes ∨ r.key = noteKey i := by
  intro r hr
  simp only [postNotes] at hr
  split at hr
  · exact Or.inl hr
  · split at hr
    · split at hr
      · exact Or.inl (List.mem_of_mem_filter hr)
      · obtain ⟨a, ha, hfa⟩ := List.mem_map.mp hr
        by_cases hk : (a.key == noteKey i) = true
        · right
          rw [← hfa]
          simp only [hk, if_true]
          simpa using hk
        · left
          rw [← hfa]
          simp only [hk, Bool.false_eq_true, if_false]
          exact ha
    · split at hr
      · rcases List.mem_append.mp hr with h | h
        · exact Or.inl h
        · right
          simp only [List.mem_singleton] at h
          rw [h]
      · exact Or.inl hr

/-- The ignore handler writes no row for any identity other than its
target. -/
theorem postIgnores_only_target (now : Nat) (st : AppState) (i : IgnoreInput) :
    ∀ r ∈ (postIgnores now st i).1.ignores, r ∈ st.ignores ∨ r.key = ignoreKey i := by
  intro r hr
  simp only [postIgnores] at hr
  split at hr
  · exact Or.inl hr
  · split at hr
    · split at hr
      · exact Or.inl hr
      · rcases List.mem_append.mp hr with h | h
        · exact Or.inl h
        · right
          simp only [List.mem_singleton] at h
          rw [h]
    · split at hr
      · exact Or.inl (List.mem_of_mem_filter hr)
      · exact Or.inl hr

/-- C3 amended: only custom-name writes mirror across the wildcard
addresses — the custom-name upsert and delete mirror to the sibling
wildcard identity when the target has no container_id, internal=false
and host_ip `0.0.0.0` or `::`, while a note write and an ignore write
never touch any identity other than their target (in particular they are
not mirrored). -/
theorem c3_wildcard_mirror_amended :
    (∀ (now : Nat) (st : AppState) (i : CnInput),
      (cnKey i).container_id = none → i.internal = false →
      (i.host_ip = "0.0.0.0" ∨ i.host_ip = "::") →
      st.failKeys.contains (cnKey i) = false →
      st.failKeys.contains (mirrorKey (cnKey i)) = false →
      (postCustomName now st i).2 = .ok "Custom service name saved successfully" ∧
        readCustomName (postCustomName now st i).1 (mirrorKey (cnKey i)) =
          some i.custom_name) ∧
    (∀ (st : AppState) (i : CnDeleteInput),
      (cnDeleteKey i).container_id = none → i.internal = false →
      (i.host_ip = "0.0.0.0" ∨ i.host_ip = "::") →
      st.failKeys.contains (cnDeleteKey i) = false →
      st.failKeys.contains (mirrorKey (cnDeleteKey i)) = false →
      ((deleteCustomName st i).1.customNames.all
        (fun r => !(r.key == mirrorKey (cnDeleteKey i)))) = true) ∧
    (∀ (now : Nat) (st : AppState) (i : NoteInput),
      ∀ r ∈ (postNotes now st i).1.notes, r ∈ st.notes ∨ r.key = noteKey i) ∧
    (∀ (now : Nat) (st : AppState) (i : IgnoreInput),
      ∀ r ∈ (postIgnores now st i).1.ignores, r ∈ st.ignores ∨ r.key = ignoreKey i) :=
  ⟨fun now st i hc hint hip hf1 hf2 =>
      postCustomName_mirror now st i hc hint hip hf1 hf2,
    fun st i hc hint hip hf1 hf2 =>
      deleteCustomName_mirror st i hc hint hip hf1 hf2,
    fun now st i => postNotes_only_target now st i,
    fun now st i => postIgnores_only_target now st i⟩

/-- A wildcard custom-name upsert request. -/
def iCnWild : CnInput :=
  ⟨"local", "0.0.0.0", 8080, "tcp", "Gateway", none, none, false⟩

/-- A state holding the IPv4-wildcard custom-name row and its IPv6
mirror. -/
def stTwoWild : AppState :=
  ⟨[], [],
    [⟨⟨"local", "0.0.0.0", 8080, "tcp", none, false⟩, "Gateway", none, 0, 0⟩,
      ⟨⟨"local", "::", 8080, "tcp", none, false⟩, "Gateway", none, 0, 0⟩],
    none, []⟩

/-- A wildcard custom-name delete request. -/
def iCnWildDel : CnDeleteInput :=
  ⟨"local", "0.0.0.0", 8080, "tcp", none, false⟩

/-- C3 amended witness: the wildcard mirror behavior applied at concrete
requests, and the note/ignore no-mirror facts applied to the rows the
wildcard note write produces. -/
theorem c3_wildcard_mirror_amended_witness :
    ((postCustomName 4 stEmpty iCnWild).2 =
        .ok "Custom service name saved successfully" ∧
      readCustomName (postCustomName 4 stEmpty iCnWild).1
        (mirrorKey (cnKey iCnWild)) = some "Gateway") ∧
    ((deleteCustomName stTwoWild iCnWildDel).1.customNames.all
      (fun r => !(r.key == mirrorKey (cnDeleteKey iCnWildDel)))) = true ∧
    (∀ r ∈ (postNotes 7 stEmpty iNoteWildcard).1.notes,
      r ∈ stEmpty.notes ∨ r.key = noteKey iNoteWildcard) ∧
    (∀ r ∈ (postIgnores 7 stEmpty iIgnPlain).1.ignores,
      r ∈ stEmpty.ignores ∨ r.key = ignoreKey iIgnPlain) :=
  ⟨c3_wildcard_mirror_amended.1 4 stEmpty iCnWild rfl rfl (Or.inl rfl) rfl rfl,
    c3_wildcard_mirror_amended.2.1 stTwoWild iCnWildDel rfl rfl (Or.inl rfl)
      rfl rfl,
    c3_wildcard_mirror_amended.2.2.1 7 stEmpty iNoteWildcard,
    c3_wildcard_mirror_amended.2.2.2 7 stEmpty iIgnPlain⟩

/-- Accumulating two pids in the aggregation equals first-appearance
deduplication of the truthy (non-null, non-zero) pids. -/
theorem pidsAdd_init_eq (p1 p2 : Option Nat) :
    pidsAdd (pidsInit p1) p2 =
      dedupFirst ((List.filterMap id [p1, p2]).filter (fun p => p != 0)) := by
  cases p1 with
  | none =>
    cases p2 with
    | none => rfl
    | some b =>
      by_cases hb : b = 0
      · simp [pidsInit, pidsAdd, dedupFirst, hb]
      · simp [pidsInit, pidsAdd, dedupFirst, hb]
  | some a =>
    cases p2 with
    | none =>
      by_cases ha : a = 0
      · simp [pidsInit, pidsAdd, dedupFirst, ha]
      · simp [pidsInit, pidsAdd, dedupFirst, ha]
    | some b =>
      by_cases ha : a = 0
      · by_cases hb : b = 0
        · simp [pidsInit, pidsAdd, dedupFirst, ha, hb]
        · simp [pidsInit, pidsAdd, dedupFirst, ha, hb]
      · by_cases hb : b = 0
        · simp [pidsInit, pidsAdd, dedupFirst, ha, hb]
        · by_cases hab : b = a
          · simp [pidsInit, pidsAdd, dedupFirst, ha, hb, hab]
          · simp [pidsInit, pidsAdd, dedupFirst, ha, hb, hab]

/-- C7 amended: two observations with identical `(host_ip, host_port,
protocol)` key passing the truthiness filter, with distinct present
owners, aggregate to exactly one entry whose flat owner is the
comma-join of both owners, whose `owners` lists each owner once in
first-appearance order, and whose `pids` list is the first-appearance
deduplication of the truthy (non-null and non-zero) pids of the group. -/
theorem c7_aggregation_merge_amended (ip : String) (port : Nat) (proto : String)
    (s1 s2 : String) (p1 p2 : Option Nat) (cid1 cid2 : Option String)
    (b1 b2 : Bool) (hport : port ≠ 0) (hip : ip ≠ "") (hne : s1 ≠ s2) :
    portsAggregate [⟨ip, port, proto, some s1, p1, cid1, b1⟩,
        ⟨ip, port, proto, some s2, p2, cid2, b2⟩] =
      [⟨⟨ip, port, proto, some s1, p1, cid1, b1⟩, [some s1, some s2],
        dedupFirst ((List.filterMap id [p1, p2]).filter (fun p => p != 0)),
        s1 ++ ", " ++ s2⟩] := by
  have hne2 : ¬ s2 = s1 := Ne.symm hne
  simp [portsAggregate, obsTruthy, addObs, obsKey, ownersAdd, joinOwners,
    hport, hip, hne2, pidsAdd_init_eq]
  rfl

/-- C7 amended witness: the merge applied at the claimed concrete
owners. -/
theorem c7_aggregation_merge_amended_witness :
    portsAggregate [⟨"10.0.0.1", 80, "tcp", some "nginx", some 1, none, false⟩,
        ⟨"10.0.0.1", 80, "tcp", some "caddy", some 2, none, false⟩] =
      [⟨⟨"10.0.0.1", 80, "tcp", some "nginx", some 1, none, false⟩,
        [some "nginx", some "caddy"],
        dedupFirst ((List.filterMap id [some 1, some 2]).filter (fun p => p != 0)),
        "nginx" ++ ", " ++ "caddy"⟩] :=
  c7_aggregation_merge_amended "10.0.0.1" 80 "tcp" "nginx" "caddy"
    (some 1) (some 2) none none false false (by decide) (by decide) (by decide)

/-- A well-formed `set` operation of the notes batch carrying note text
`n` whose trim is non-empty. -/
def goodSetNoteOp (op : NoteOp) (n : String) : Prop :=
  op.action = "set" ∧ op.host_ip ≠ "" ∧ 1 ≤ op.host_port ∧
    op.host_port ≤ 65535 ∧ (op.protocol = "tcp" ∨ op.protocol = "udp") ∧
    op.note = some n ∧ n ≠ "" ∧ trimString n ≠ ""

/-- One notes-batch step on a well-formed `set` operation whose identity
does not fail: the note is stored and a success outcome is appended. -/
theorem runNoteOps_set_step (now : Nat) (sid : String) (op : NoteOp)
    (rest : List NoteOp) (st : AppState) (acc : List NoteOutcome) (n : String)
    (hgood : goodSetNoteOp op n)
    (hfail : st.failKeys.contains (noteOpKey sid op) = false) :
    runNoteOps now sid (op :: rest) st acc =
      runNoteOps now sid rest
        {st with notes :=
          if st.notes.any (fun r => r.key == noteOpKey sid op) then
            st.notes.map (fun r =>
              if r.key == noteOpKey sid op then
                {r with note := trimString n, updated_at := some now}
              else r)
          else st.notes ++ [⟨noteOpKey sid op, trimString n, now, some now⟩]}
        (acc ++ [⟨true, some "set", some op.host_ip, some op.host_port,
          op.container_id, some op.internal, none, none⟩]) := by
  obtain ⟨ha, hip, hp1, hp2, hproto, hn, hne, hnt⟩ := hgood
  have hmem : ¬ (noteOpKey sid op ∈ st.failKeys) := by simpa using hfail
  rcases hproto with hpr | hpr <;>
    simp [runNoteOps, noteFieldTruthy, ha, hip, hp1, hp2, hpr, hn, hne, hnt, hmem]

/-- One notes-batch step on a well-formed `set` operation whose identity
fails: the state is unchanged, a failed outcome is appended, the loop
continues. -/
theorem runNoteOps_fail_step (now : Nat) (sid : String) (op : NoteOp)
    (rest : List NoteOp) (st : AppState) (acc : List NoteOutcome) (n : String)
    (hgood : goodSetNoteOp op n)
    (hfail : st.failKeys.contains (noteOpKey sid op) = true) :
    runNoteOps now sid (op :: rest) st acc =
      runNoteOps now sid rest st
        (acc ++ [⟨false, none, some op.host_ip, some op.host_port,
          op.container_id, none, none, some "storage failure"⟩]) := by
  obtain ⟨ha, hip, hp1, hp2, hproto, hn, hne, hnt⟩ := hgood
  have hmem : noteOpKey sid op ∈ st.failKeys := by simpa using hfail
  rcases hproto with hpr | hpr <;>
    simp [runNoteOps, noteFieldTruthy, ha, hip, hp1, hp2, hpr, hn, hne, hnt, hmem]

/-- Reading a key right after the notes-batch set wrote it returns the
trimmed text. -/
theorem noteSet_read (now : Nat) (l : List NoteRow) (k : PortKey) (t : String) :
    (((if l.any (fun r => r.key == k) then
        l.map (fun r =>
          if r.key == k then {r with note := t, updated_at := some now} else r)
      else l ++ [⟨k, t, now, some now⟩]).find? (fun r => r.key == k)).map
        (fun r => r.note)) = some t := by
  by_cases hex : l.any (fun r => r.key == k) = true
  · simp only [hex, if_true]
    exact noteRows_find_update now l k t hex
  · rw [Bool.not_eq_true] at hex
    simp only [hex, Bool.false_eq_true, if_false]
    exact noteRows_find_append l k _ hex (by simp)

/-- C4 amended: the notes batch applies each operation independently —
a storage failure on the middle of three well-formed set operations is
recorded as that item's failed outcome, the batch still answers 200 with
one outcome per operation and the later operation is applied — whereas
the custom-name batch runs inside a single try: a storage failure on the
second of two valid operations aborts the batch with a generic 500, no
itemized outcomes, the earlier operation left committed and the cache
entry untouched. -/
theorem c4_batch_independence_amended :
    (∀ (now : Nat) (st : AppState) (sid : String) (a b c : NoteOp)
        (na nb nc : String),
      sid ≠ "" →
      goodSetNoteOp a na → goodSetNoteOp b nb → goodSetNoteOp c nc →
      st.failKeys.contains (noteOpKey sid a) = false →
      st.failKeys.contains (noteOpKey sid b) = true →
      st.failKeys.contains (noteOpKey sid c) = false →
      (batchNotes now st sid [a, b, c]).2 = .ok
        [⟨true, some "set", some a.host_ip, some a.host_port, a.container_id,
            some a.internal, none, none⟩,
          ⟨false, none, some b.host_ip, some b.host_port, b.container_id,
            none, none, some "storage failure"⟩,
          ⟨true, some "set", some c.host_ip, some c.host_port, c.container_id,
            some c.internal, none, none⟩] ∧
        readNote (batchNotes now st sid [a, b, c]).1 (noteOpKey sid c) =
          some (trimString nc)) ∧
    (∀ (now : Nat) (st : AppState) (sid : String) (a b : CnOp),
      trimString sid ≠ "" →
      validCnOp a = true → validCnOp b = true → a.action = "set" →
      st.failKeys.contains (cnOpKey sid a) = false →
      st.failKeys.contains (cnOpKey sid b) = true →
      (batchCustomNames now st sid [a, b]).2 =
          .serverError "Database operation failed" ∧
        readCustomName (batchCustomNames now st sid [a, b]).1 (cnOpKey sid a) =
          some (a.custom_name.getD "") ∧
        (batchCustomNames now st sid [a, b]).1.portsCache = st.portsCache) := by
  constructor
  · intro now st sid a b c na nb nc hsid hga hgb hgc hfa hfb hfc
    have hsid' : (sid == "") = false := by simp [hsid]
    simp only [batchNotes, hsid', Bool.false_eq_true, if_false]
    rw [runNoteOps_set_step now sid a [b, c] st [] na hga hfa]
    rw [runNoteOps_fail_step now sid b [c] _ _ nb hgb (by exact hfb)]
    rw [runNoteOps_set_step now sid c [] _ _ nc hgc (by exact hfc)]
    constructor
    · rfl
    · rw [readNote]
      exact noteSet_read now _ (noteOpKey sid c) (trimString nc)
  · intro now st sid a b hsid hva hvb ha hfa hfb
    have hsid' : (trimString sid == "") = false := by simp [hsid]
    have hmema : ¬ (cnOpKey sid a ∈ st.failKeys) := by simpa using hfa
    have hmemb : cnOpKey sid b ∈ st.failKeys := by simpa using hfb
    have hall : ([a, b].all validCnOp) = true := by
      simp [hva, hvb]
    have hstep : runCnOps now sid [a, b] st [] =
        ({st with customNames := upsertCn now st.customNames (cnOpKey sid a) (a.custom_name.getD "") (jsOrNull a.original_name)}, .serverError "Database operation failed") := by
      simp [runCnOps, ha, hmema, hmemb]
    have hbatch : batchCustomNames now st sid [a, b] =
        ({st with customNames := upsertCn now st.customNames (cnOpKey sid a) (a.custom_name.getD "") (jsOrNull a.original_name)}, .serverError "Database operation failed") := by
      simp only [batchCustomNames, hsid', Bool.false_eq_true, if_false,
        List.isEmpty_cons, hall, Bool.not_true]
      exact hstep
    rw [hbatch]
    refine ⟨rfl, ?_, rfl⟩
    rw [readCustomName]
    exact cnRows_find_upsert now st.customNames (cnOpKey sid a)
      (a.custom_name.getD "") (jsOrNull a.original_name)

/-- First notes-batch operation of the witness (healthy identity). -/
def opNoteA : NoteOp := ⟨"set", "10.0.0.1", 80, "tcp", some "alpha", none, false⟩

/-- Second notes-batch operation of the witness (failing identity). -/
def opNoteB : NoteOp := ⟨"set", "10.0.0.1", 81, "tcp", some "beta", none, false⟩

/-- Third notes-batch operation of the witness (healthy identity). -/
def opNoteC : NoteOp := ⟨"set", "10.0.0.2", 80, "tcp", some "gamma", none, false⟩

/-- C4 amended witness: batch independence of the notes batch and the
abort of the custom-name batch at concrete operations over `stFailB`,
whose storage fails on 10.0.0.1:81. -/
theorem c4_batch_independence_amended_witness :
    ((batchNotes 5 stFailB "local" [opNoteA, opNoteB, opNoteC]).2 = .ok
        [⟨true, some "set", some "10.0.0.1", some 80, none, some false, none, none⟩,
          ⟨false, none, some "10.0.0.1", some 81, none, none, none,
            some "storage failure"⟩,
          ⟨true, some "set", some "10.0.0.2", some 80, none, some false, none, none⟩] ∧
      readNote (batchNotes 5 stFailB "local" [opNoteA, opNoteB, opNoteC]).1
        (noteOpKey "local" opNoteC) = some (trimString "gamma")) ∧
    ((batchCustomNames 9 stFailB "local" [opSetA, opSetB]).2 =
        .serverError "Database operation failed" ∧
      readCustomName (batchCustomNames 9 stFailB "local" [opSetA, opSetB]).1
        (cnOpKey "local" opSetA) = some ((opSetA.custom_name).getD "") ∧
      (batchCustomNames 9 stFailB "local" [opSetA, opSetB]).1.portsCache =
        stFailB.portsCache) :=
  ⟨c4_batch_independence_amended.1 5 stFailB "local" opNoteA opNoteB opNoteC
      "alpha" "beta" "gamma" (by decide)
      ⟨rfl, by decide, by decide, by decide, Or.inl rfl, rfl, by decide, by decide⟩
      ⟨rfl, by decide, by decide, by decide, Or.inl rfl, rfl, by decide, by decide⟩
      ⟨rfl, by decide, by decide, by decide, Or.inl rfl, rfl, by decide, by decide⟩
      (by decide) (by decide) (by decide),
    c4_batch_independence_amended.2 9 stFailB "local" opSetA opSetB
      (by decide) (by decide) (by decide) rfl (by decide) (by decide)⟩

end Portracker
